import Mathlib

/-!
Verification of the kvmd HID firmware core against its specification.

The definitions below are a shallow embedding of the firmware sources:

- src/hid/lib/common/proto.cpp       (PROTO.crc16)
- src/hid/src/main.cpp               (dispatcher, response builder, serial
                                      framer, outputs record read and write)
- src/hid/pico/src/ph_ps2.c          (PS2 keyboard scancode translation and
                                      host command handling)
- src/hid/lib/drivers-avr/spi.cpp    (SPI slave framer and its ISR)

Machine integers are embedded as Nat with explicit reduction mod 256 or
mod 65536 where the C types truncate. The file proto.h with the numeric
protocol constants and the timing helper from tools.h are not part of the
sources at hand; those definitions are marked as modelled from the spec.
-/

set_option maxRecDepth 8000000

set_option maxHeartbeats 2000000

/-- Inner bit iteration of PROTO.crc16 (proto.cpp lines 30 to 37): if the low
bit of the state is 0 the state shifts right once, else it shifts right once
and is xored with the polynomial 0xA001. -/
def crcBit (crc : Nat) : Nat :=
  if crc &&& 0x0001 = 0 then crc >>> 1 else (crc >>> 1) ^^^ 0xA001

/-- One byte iteration of PROTO.crc16 (proto.cpp lines 28 to 38): xor the next
input byte into the state, then run eight bit iterations. The input byte has C
type uint8_t, hence the reduction mod 256. -/
def crcByte (crc b : Nat) : Nat := crcBit^[8] (crc ^^^ b % 256)

/-- PROTO.crc16 from src/hid/lib/common/proto.cpp: state starts at 0xFFFF and
every buffer byte is folded in with crcByte. The result is the 16 bit state. -/
def crc16 (buf : List Nat) : Nat := buf.foldl crcByte 0xFFFF

/-- Spec wording of one CRC bit round (spec section 4.1), written from the spec
for the refinement part of claim C2: if the LSB is 0 then crc is halved, else
crc is halved and xored with 0xA001. -/
def arcRound (c : Nat) : Nat :=
  if c % 2 = 0 then c / 2 else c / 2 ^^^ 0xA001

/-- Spec wording, claim C2: n repetitions of arcRound. -/
def arcRounds : Nat → Nat → Nat
  | 0, c => c
  | n + 1, c => arcRounds n (arcRound c)

/-- Spec wording, claim C2: per byte, xor the byte into the state and run eight
rounds; recurse over the input. -/
def crc16SpecArcGo : Nat → List Nat → Nat
  | crc, [] => crc
  | crc, b :: rest => crc16SpecArcGo (arcRounds 8 (crc ^^^ b % 256)) rest

/-- Spec wording of the whole checksum (spec section 4.1): init 0xFFFF, per
byte xor, eight LSB first shift iterations with polynomial 0xA001, no final
xor. Compared against crc16 in claim C2. -/
def crc16SpecArc (bytes : List Nat) : Nat := crc16SpecArcGo 0xFFFF bytes

/-- Modelled from the spec: proto.h is not under src. Request magic byte
(spec section 3). -/
def PROTO_MAGIC : Nat := 0x33

/-- Modelled from the spec: proto.h is not under src. Response magic byte
(spec section 3). -/
def PROTO_MAGIC_RESP : Nat := 0x34

/-- Modelled from the spec: proto.h is not under src. Opcodes from the table
in spec section 4.9. -/
def CMD_PING : Nat := 0x01

/-- Modelled from the spec: proto.h is not under src, spec section 4.9. -/
def CMD_REPEAT : Nat := 0x02

/-- Modelled from the spec: proto.h is not under src, spec section 4.9. -/
def CMD_SET_KEYBOARD : Nat := 0x03

/-- Modelled from the spec: proto.h is not under src, spec section 4.9. -/
def CMD_SET_MOUSE : Nat := 0x04

/-- Modelled from the spec: proto.h is not under src, spec section 4.9. -/
def CMD_SET_CONNECTED : Nat := 0x05

/-- Modelled from the spec: proto.h is not under src, spec section 4.9. -/
def CMD_CLEAR_HID : Nat := 0x10

/-- Modelled from the spec: proto.h is not under src, spec section 4.9. -/
def CMD_KEYBOARD_KEY : Nat := 0x11

/-- Modelled from the spec: proto.h is not under src, spec section 4.9. -/
def CMD_MOUSE_BUTTON : Nat := 0x12

/-- Modelled from the spec: proto.h is not under src, spec section 4.9. -/
def CMD_MOUSE_MOVE : Nat := 0x13

/-- Modelled from the spec: proto.h is not under src, spec section 4.9. -/
def CMD_MOUSE_RELATIVE : Nat := 0x14

/-- Modelled from the spec: proto.h is not under src, spec section 4.9. -/
def CMD_MOUSE_WHEEL : Nat := 0x15

/-- Modelled from the spec: proto.h is not under src. Spec sections 4.9 and 7
fix RESP NONE to 0x00 (the response to a REPEAT with no prior response). -/
def RESP_NONE : Nat := 0x00

/-- Modelled from the spec: proto.h is not under src. The spec (section 6)
requires the error codes to occupy byte 1 with the OK bit 0x80 clear and, so
that the REPEAT substitution does not apply to them, they are nonzero; the
concrete value is otherwise unspecified and 0x40 is chosen here. -/
def RESP_CRC_ERROR : Nat := 0x40

/-- Modelled from the spec: proto.h is not under src, see RESP_CRC_ERROR;
0x45 chosen. -/
def RESP_INVALID_ERROR : Nat := 0x45

/-- Modelled from the spec: proto.h is not under src, see RESP_CRC_ERROR;
0x48 chosen. -/
def RESP_TIMEOUT_ERROR : Nat := 0x48

/-- Modelled from the spec: proto.h is not under src, spec section 6. -/
def PONG_OK : Nat := 0x80

/-- Modelled from the spec: proto.h is not under src, spec section 6. -/
def PONG_RESET_REQUIRED : Nat := 0x40

/-- Modelled from the spec: proto.h is not under src, spec section 6. -/
def PONG_MOUSE_OFFLINE : Nat := 0x10

/-- Modelled from the spec: proto.h is not under src, spec section 6. -/
def PONG_KEYBOARD_OFFLINE : Nat := 0x08

/-- Modelled from the spec: proto.h is not under src, spec section 6. -/
def PONG_NUM : Nat := 0x04

/-- Modelled from the spec: proto.h is not under src, spec section 6. -/
def PONG_SCROLL : Nat := 0x02

/-- Modelled from the spec: proto.h is not under src, spec section 6. -/
def PONG_CAPS : Nat := 0x01

/-- Modelled from the spec: proto.h is not under src, spec section 6. -/
def OUTPUTS1_DYNAMIC : Nat := 0x80

/-- Modelled from the spec: proto.h is not under src, spec section 6. -/
def OUTPUTS1_KEYBOARD_USB : Nat := 0x01

/-- Modelled from the spec: proto.h is not under src, spec section 6. -/
def OUTPUTS1_KEYBOARD_PS2 : Nat := 0x02

/-- Modelled from the spec: proto.h is not under src, spec section 6. -/
def OUTPUTS1_KEYBOARD_MASK : Nat := 0x07

/-- Modelled from the spec: proto.h is not under src, spec section 6. -/
def OUTPUTS1_MOUSE_USB_ABS : Nat := 0x08

/-- Modelled from the spec: proto.h is not under src, spec section 6. -/
def OUTPUTS1_MOUSE_USB_REL : Nat := 0x10

/-- Modelled from the spec: proto.h is not under src, spec section 6. -/
def OUTPUTS1_MOUSE_USB_WIN98 : Nat := 0x20

/-- Modelled from the spec: proto.h is not under src, spec section 6. -/
def OUTPUTS1_MOUSE_MASK : Nat := 0x38

/-- Modelled from the spec: proto.h is not under src, spec section 6. -/
def OUTPUTS2_HAS_USB : Nat := 0x01

/-- Modelled from the spec: proto.h is not under src, spec section 6. -/
def OUTPUTS2_HAS_PS2 : Nat := 0x02

/-- Modelled from the spec: proto.h is not under src, spec section 6. -/
def OUTPUTS2_HAS_USB_WIN98 : Nat := 0x04

/-- Modelled from the spec: proto.h is not under src, spec section 6. -/
def OUTPUTS2_CONNECTABLE : Nat := 0x40

/-- Modelled from the spec: proto.h is not under src, spec section 6. -/
def OUTPUTS2_CONNECTED : Nat := 0x80

/-- Modelled from the spec: proto.h is not under src. Spec section 4.1: the
helper split16 stores the pair consisting of x shifted right by 8 and the low
byte of x. The C argument type uint16_t truncates mod 65536. -/
def split16 (x : Nat) : Nat × Nat := ((x % 65536) >>> 8, x &&& 0xFF)

/-- Modelled from the spec: proto.h is not under src. Spec section 4.1 makes
merge8 the inverse of split16, so it rebuilds hi shifted left by 8 ored with
lo; the uint8_t argument types truncate mod 256. -/
def merge8 (hi lo : Nat) : Nat := ((hi % 256) <<< 8) ||| (lo % 256)

/-- Modelled from the spec: proto.h is not under src. Spec section 4.9 has the
MOUSE_MOVE payload pairs decoded as signed 16 bit values, so merge8 followed
by the two complement reading of a 16 bit word. -/
def merge8_int (hi lo : Nat) : Int :=
  if merge8 hi lo < 0x8000 then (merge8 hi lo : Int) else (merge8 hi lo : Int) - 0x10000

/-- CRC authentication of an 8 byte frame, as performed by the dispatcher in
main.cpp line 209: the CRC of bytes 0..5 must equal merge8 of bytes 6 and 7. -/
def frameCrcOk (f : List Nat) : Bool :=
  crc16 (f.take 6) == merge8 (f.getD 6 0) (f.getD 7 0)

/-- Command handler invocations of main.cpp with their decoded arguments: one
constructor per cmd handler, recording exactly what the handler passes to the
driver layer (main.cpp lines 148 to 206). -/
inductive Cmd where
  | setKeyboard (outputs : Nat)
  | setMouse (outputs : Nat)
  | setConnected (connected : Nat)
  | clearHid
  | keyEvent (code state : Nat)
  | mouseButtonEvent (mainButtons extraButtons : Nat)
  | mouseMoveEvent (x y : Int)
  | mouseRelativeEvent (dx dy : Nat)
  | mouseWheelEvent (dy : Nat)
  deriving DecidableEq

/-- The dispatcher of main.cpp lines 208 to 228 translated clause by clause:
returns the response code together with the handler invocation it performs, if
any. A CRC failure runs nothing and yields RESP CRC_ERROR; an unknown opcode
runs nothing and yields RESP INVALID_ERROR; REPEAT runs nothing and returns
the code 0. -/
def handleRequest (data : List Nat) : Nat × Option Cmd :=
  if frameCrcOk data then
    if data.getD 1 0 = CMD_PING then (PONG_OK, none)
    else if data.getD 1 0 = CMD_SET_KEYBOARD then
      (PONG_OK, some (Cmd.setKeyboard (data.getD 2 0)))
    else if data.getD 1 0 = CMD_SET_MOUSE then
      (PONG_OK, some (Cmd.setMouse (data.getD 2 0)))
    else if data.getD 1 0 = CMD_SET_CONNECTED then
      (PONG_OK, some (Cmd.setConnected (data.getD 2 0)))
    else if data.getD 1 0 = CMD_CLEAR_HID then (PONG_OK, some Cmd.clearHid)
    else if data.getD 1 0 = CMD_KEYBOARD_KEY then
      (PONG_OK, some (Cmd.keyEvent (data.getD 2 0) (data.getD 3 0)))
    else if data.getD 1 0 = CMD_MOUSE_BUTTON then
      (PONG_OK, some (Cmd.mouseButtonEvent (data.getD 2 0) (data.getD 3 0)))
    else if data.getD 1 0 = CMD_MOUSE_MOVE then
      (PONG_OK, some (Cmd.mouseMoveEvent
        (merge8_int (data.getD 2 0) (data.getD 3 0))
        (merge8_int (data.getD 4 0) (data.getD 5 0))))
    else if data.getD 1 0 = CMD_MOUSE_RELATIVE then
      (PONG_OK, some (Cmd.mouseRelativeEvent (data.getD 2 0) (data.getD 3 0)))
    else if data.getD 1 0 = CMD_MOUSE_WHEEL then
      (PONG_OK, some (Cmd.mouseWheelEvent (data.getD 3 0)))
    else if data.getD 1 0 = CMD_REPEAT then (0, none)
    else (RESP_INVALID_ERROR, none)
  else (RESP_CRC_ERROR, none)

/-- Keyboard driver kinds switched over in the response builder
(main.cpp lines 256 to 263). -/
inductive KeyboardType where
  | dummy
  | usbKeyboard
  | ps2Keyboard
  deriving DecidableEq

/-- Mouse driver kinds switched over in the response builder
(main.cpp lines 267 to 277). -/
inductive MouseType where
  | dummy
  | usbMouseAbsolute
  | usbMouseAbsoluteWin98
  | usbMouseRelative
  deriving DecidableEq

/-- Compile time feature switches of main.cpp, one Bool per preprocessor
define consulted by the response builder. -/
structure FirmwareConfig where
  hidDynamic : Bool
  aum : Bool
  hidWithUsb : Bool
  hidWithUsbWin98 : Bool
  hidWithPs2 : Bool
  deriving DecidableEq

/-- Device state read by the response builder: active driver kinds, offline
flags, keyboard LEDs, the reset_required flag and the AUM connected flag. -/
structure DeviceState where
  kbdType : KeyboardType
  kbdOffline : Bool
  ledsCaps : Bool
  ledsScroll : Bool
  ledsNum : Bool
  mouseType : MouseType
  mouseOffline : Bool
  resetRequired : Bool
  aumUsbConnected : Bool
  deriving DecidableEq

/-- The response builder of main.cpp lines 232 to 304. Arguments codeArg and
prevArg model the uint8_t code parameter and the static prev_code variable;
both truncate mod 256. Returns the 8 byte response frame and the new value of
prev_code. A zero code is replaced by prev_code; a nonzero code is stored into
prev_code. If the effective code has the PONG OK bit, bytes 1 to 3 are rebuilt
from the device state, else byte 1 is the code itself. Bytes 6 and 7 are
split16 of the CRC of bytes 0 to 5. -/
def sendResponsePayload (cfg : FirmwareConfig) (st : DeviceState)
    (codeArg prevArg : Nat) : List Nat :=
  let codeIn := codeArg % 256
  let prev := prevArg % 256
  let code := if codeIn = 0 then prev else codeIn
  let r123 :=
    if code &&& PONG_OK ≠ 0 then
      let r1 := PONG_OK
      let r1 := if cfg.hidDynamic && st.resetRequired then r1 ||| PONG_RESET_REQUIRED else r1
      let r2 := if cfg.hidDynamic then OUTPUTS1_DYNAMIC else 0
      let r1 :=
        if st.kbdType ≠ KeyboardType.dummy then
          (((r1 ||| (if st.kbdOffline then PONG_KEYBOARD_OFFLINE else 0))
            ||| (if st.ledsCaps then PONG_CAPS else 0))
            ||| (if st.ledsNum then PONG_NUM else 0))
            ||| (if st.ledsScroll then PONG_SCROLL else 0)
        else r1
      let r2 :=
        if st.kbdType ≠ KeyboardType.dummy then
          r2 ||| (match st.kbdType with
            | KeyboardType.usbKeyboard => OUTPUTS1_KEYBOARD_USB
            | KeyboardType.ps2Keyboard => OUTPUTS1_KEYBOARD_PS2
            | KeyboardType.dummy => 0)
        else r2
      let r1 :=
        if st.mouseType ≠ MouseType.dummy then
          r1 ||| (if st.mouseOffline then PONG_MOUSE_OFFLINE else 0)
        else r1
      let r2 :=
        if st.mouseType ≠ MouseType.dummy then
          r2 ||| (match st.mouseType with
            | MouseType.usbMouseAbsoluteWin98 => OUTPUTS1_MOUSE_USB_WIN98
            | MouseType.usbMouseAbsolute => OUTPUTS1_MOUSE_USB_ABS
            | MouseType.usbMouseRelative => OUTPUTS1_MOUSE_USB_REL
            | MouseType.dummy => 0)
        else r2
      let r3 :=
        if cfg.aum then
          OUTPUTS2_CONNECTABLE ||| (if st.aumUsbConnected then OUTPUTS2_CONNECTED else 0)
        else 0
      let r3 :=
        if cfg.hidWithUsb then
          (r3 ||| OUTPUTS2_HAS_USB)
            ||| (if cfg.hidWithUsbWin98 then OUTPUTS2_HAS_USB_WIN98 else 0)
        else r3
      let r3 := if cfg.hidWithPs2 then r3 ||| OUTPUTS2_HAS_PS2 else r3
      (r1, r2, r3)
    else (code, 0, 0)
  [PROTO_MAGIC_RESP, r123.1, r123.2.1, r123.2.2, 0, 0]

/-- The new value of the static prev_code after one sendResponse call
(main.cpp lines 233 to 238): unchanged on a zero code, else the code. -/
def sendResponsePrev (codeArg prevArg : Nat) : Nat :=
  if codeArg % 256 = 0 then prevArg % 256 else codeArg % 256

/-- The full result of sendResponse: the 6 payload bytes followed by the
split16 of their CRC (main.cpp line 297), paired with the new prev_code. -/
def sendResponse (cfg : FirmwareConfig) (st : DeviceState) (codeArg prevArg : Nat) :
    List Nat × Nat :=
  (sendResponsePayload cfg st codeArg prevArg
    ++ [(split16 (crc16 (sendResponsePayload cfg st codeArg prevArg))).1,
        (split16 (crc16 (sendResponsePayload cfg st codeArg prevArg))).2],
   sendResponsePrev codeArg prevArg)

/-- The readOutputs helper of main.cpp lines 55 to 62 over the 8 byte storage
record: minus one when byte 0 is not the magic or the CRC fails, else byte 1.
The uint8_t reads truncate mod 256. -/
def readOutputs (data : List Nat) : Int :=
  if data.getD 0 0 % 256 ≠ PROTO_MAGIC
      ∨ crc16 (data.take 6) ≠ merge8 (data.getD 6 0) (data.getD 7 0) then
    -1
  else
    ((data.getD 1 0 % 256 : Nat) : Int)

/-- Clamp of the read record used by writeOutputs (main.cpp lines 65 to 71):
the record byte, or 0 when the read failed. Int.toNat maps the failure value
minus one to 0, exactly the if old less than zero clamp. -/
def oldOutputs (data : List Nat) : Nat := (readOutputs data).toNat

/-- The writeOutputs helper of main.cpp lines 64 to 77. Without force the old
record byte is read (0 on a failed read) and the new byte is old land the 8
bit complement of mask, lor the outputs argument, exactly as the source line
data[1] = (old and not mask) or outputs. Note the source does not mask the
outputs argument. The other bytes are the magic, four zeros and the split CRC.
The complement of the int expression not mask agrees with the xor against 255
on the 8 bit values involved since old is below 256. -/
def writeOutputs (store : List Nat) (mask outputs : Nat) (force : Bool) : List Nat :=
  let old : Nat := if force then 0 else oldOutputs store
  let b1 := (old &&& (255 ^^^ mask % 256)) ||| outputs % 256
  let payload := [PROTO_MAGIC, b1, 0, 0, 0, 0]
  let c := crc16 payload
  payload ++ [(split16 c).1, (split16 c).2]

/-- Modifier translation table ph_ps2_mod2ps2 of ph_ps2.c line 36. -/
def ph_ps2_mod2ps2 : List Nat := [0x14, 0x12, 0x11, 0x1f, 0x14, 0x59, 0x11, 0x27]

/-- Scan code translation table ph_ps2_hid2ps2 of ph_ps2.c lines 37 to 46,
116 entries. -/
def ph_ps2_hid2ps2 : List Nat :=
  [0x00, 0x00, 0xfc, 0x00, 0x1c, 0x32, 0x21, 0x23, 0x24, 0x2b, 0x34, 0x33, 0x43, 0x3b, 0x42, 0x4b,
   0x3a, 0x31, 0x44, 0x4d, 0x15, 0x2d, 0x1b, 0x2c, 0x3c, 0x2a, 0x1d, 0x22, 0x35, 0x1a, 0x16, 0x1e,
   0x26, 0x25, 0x2e, 0x36, 0x3d, 0x3e, 0x46, 0x45, 0x5a, 0x76, 0x66, 0x0d, 0x29, 0x4e, 0x55, 0x54,
   0x5b, 0x5d, 0x5d, 0x4c, 0x52, 0x0e, 0x41, 0x49, 0x4a, 0x58, 0x05, 0x06, 0x04, 0x0c, 0x03, 0x0b,
   0x83, 0x0a, 0x01, 0x09, 0x78, 0x07, 0x7c, 0x7e, 0x7e, 0x70, 0x6c, 0x7d, 0x71, 0x69, 0x7a, 0x74,
   0x6b, 0x72, 0x75, 0x77, 0x4a, 0x7c, 0x7b, 0x79, 0x5a, 0x69, 0x72, 0x7a, 0x6b, 0x73, 0x74, 0x6c,
   0x75, 0x7d, 0x70, 0x71, 0x61, 0x2f, 0x37, 0x0f, 0x08, 0x10, 0x18, 0x20, 0x28, 0x30, 0x38, 0x40,
   0x48, 0x50, 0x57, 0x5f]

/-- The sizeof bound ph_ps2_maparray of ph_ps2.c line 47. -/
def ph_ps2_maparray : Nat := ph_ps2_hid2ps2.length

/-- The helper ph_ps2_kbd_maybe_send_e0 of ph_ps2.c lines 53 to 61, as the
list of bytes it enqueues. -/
def ph_ps2_kbd_maybe_send_e0 (byte : Nat) : List Nat :=
  if byte = 0x46 ∨ (0x49 ≤ byte ∧ byte ≤ 0x52) ∨ byte = 0x54 ∨ byte = 0x58
      ∨ byte = 0x65 ∨ byte = 0x66 ∨ 0x81 ≤ byte then
    [0xe0]
  else []

/-- The function ph_ps2_kbd_send_key of ph_ps2.c lines 155 to 194, as the list
of bytes enqueued when the PS2 keyboard output is active (when it is not, the
function enqueues nothing). The source branch for a shift modified PrintScreen
is behind the literal condition false and therefore dead, so a press of 0x48
always takes the eight byte sequence. Table reads use getD, the checked
variant below shows every such read is in bounds. -/
def ph_ps2_kbd_send_key (key : Nat) (state : Bool) : List Nat :=
  if 0xe0 ≤ key ∧ key ≤ 0xe7 then
    (if 2 < key - 0xe0 ∧ key - 0xe0 ≠ 5 then [0xe0] else [])
      ++ (if state then [] else [0xf0])
      ++ [ph_ps2_mod2ps2.getD (key - 0xe0) 0]
  else if key < ph_ps2_maparray then
    if key = 0x48 then
      if state then [0xe1, 0x14, 0x77, 0xe1, 0xf0, 0x14, 0xf0, 0x77] else []
    else
      ph_ps2_kbd_maybe_send_e0 key
        ++ (if state then [] else [0xf0])
        ++ [ph_ps2_hid2ps2.getD key 0]
  else []

/-- Bounds checked variant of ph_ps2_kbd_send_key: every table read goes
through get? and a none result aborts. Used to state claim C10, that every
table access of the source function is in bounds. -/
def ph_ps2_kbd_send_key_checked (key : Nat) (state : Bool) : Option (List Nat) :=
  if 0xe0 ≤ key ∧ key ≤ 0xe7 then
    (ph_ps2_mod2ps2.get? (key - 0xe0)).map (fun b =>
      (if 2 < key - 0xe0 ∧ key - 0xe0 ≠ 5 then [0xe0] else [])
        ++ (if state then [] else [0xf0]) ++ [b])
  else if key < ph_ps2_maparray then
    if key = 0x48 then
      some (if state then [0xe1, 0x14, 0x77, 0xe1, 0xf0, 0x14, 0xf0, 0x77] else [])
    else
      (ph_ps2_hid2ps2.get? key).map (fun b =>
        ph_ps2_kbd_maybe_send_e0 key
          ++ (if state then [] else [0xf0]) ++ [b])
  else some []

/-- The host command handler ph_ps2_kbd_receive of ph_ps2.c lines 63 to 114,
with the global ph_g_ps2_kbd_leds passed and returned explicitly (the source
declares it at line 30 and never assigns it, so it is returned unchanged on
every path). The result pairs the new leds value with the bytes enqueued:
0xff answers 0xfa 0xaa, 0xee echoes, 0xf2 answers 0xfa 0xab 0x83, 0xfe
answers nothing, and every other byte, 0xed and 0xf3 included, falls through
to the trailing ACK 0xfa. -/
def ph_ps2_kbd_receive (leds : Nat) (byte : Nat) : Nat × List Nat :=
  if byte % 256 = 0xed then (leds, [0xfa])
  else if byte % 256 = 0xf3 then (leds, [0xfa])
  else if byte % 256 = 0xff then (leds, [0xfa, 0xaa])
  else if byte % 256 = 0xfe then (leds, [])
  else if byte % 256 = 0xee then (leds, [0xee])
  else if byte % 256 = 0xf2 then (leds, [0xfa, 0xab, 0x83])
  else (leds, [0xfa])

/-- State of the SPI slave framer of spi.cpp: the two 8 byte buffers with
their indices, the function local static receiving latch of the ISR, and the
SPDR data register as last written by the ISR. -/
structure SpiState where
  inBuf : List Nat
  inIndex : Nat
  outBuf : List Nat
  outIndex : Nat
  receiving : Bool
  spdr : Nat
  deriving DecidableEq

/-- spiReady of spi.cpp lines 41 to 43: true iff the first out byte is 0 and
the in index is 8. -/
def spiReady (s : SpiState) : Bool :=
  s.outBuf.getD 0 0 == 0 && s.inIndex == 8

/-- One execution of the ISR body of spi.cpp lines 57 to 83. The input is the
byte read from SPDR at entry (a uint8_t, truncated mod 256) and wcol tells
whether the write collision flag was set when checked. Egress mode (first out
byte nonzero and out index below 8): SPDR is loaded from out at the out index,
and without a collision the index advances, resetting both indices and the
first out byte upon reaching 8. Ingress mode: the receiving latch arms on the
first nonzero byte, armed reception stores the byte and advances the in
index, reaching 8 disarms the latch, and SPDR is cleared. -/
def spiIsrStep (s : SpiState) (input : Nat) (wcol : Bool) : SpiState :=
  if s.outBuf.getD 0 0 ≠ 0 ∧ s.outIndex < 8 then
    let s1 := { s with spdr := s.outBuf.getD s.outIndex 0 }
    if !wcol then
      if s1.outIndex + 1 = 8 then
        { s1 with outIndex := 0, inIndex := 0, outBuf := s1.outBuf.set 0 0 }
      else { s1 with outIndex := s1.outIndex + 1 }
    else s1
  else
    let recv := if !s.receiving && input % 256 ≠ 0 then true else s.receiving
    let inBuf := if recv ∧ s.inIndex < 8 then s.inBuf.set s.inIndex (input % 256) else s.inBuf
    let inIndex := if recv ∧ s.inIndex < 8 then s.inIndex + 1 else s.inIndex
    let recv2 := if inIndex = 8 then false else recv
    { s with inBuf := inBuf, inIndex := inIndex, receiving := recv2, spdr := 0 }

/-- Modelled from the spec: tools.h is not under src. The inter byte idle
check of the serial framer; spec section 4.8 has the framer fire when the
idle time since the stored timestamp exceeds the timeout. -/
def is_micros_timed_out (start timeout now : Nat) : Bool :=
  decide (timeout < now - start)

/-- CMD_SERIAL_TIMEOUT default from main.cpp line 25, in microseconds. -/
def CMD_SERIAL_TIMEOUT : Nat := 100000

/-- What one serial poll does besides updating its state: nothing, dispatch a
completed frame, or emit a plain response code. -/
inductive SerialAction where
  | idle
  | dispatch (frame : List Nat)
  | respond (code : Nat)
  deriving DecidableEq

/-- State of the serial framer statics of main.cpp loop lines 328 to 330:
the partial frame buffer, the fill index and the timestamp of the last
accepted byte. -/
structure SerialState where
  buffer : List Nat
  index : Nat
  last : Nat
  deriving DecidableEq

/-- One iteration of the serial branch of loop, main.cpp lines 331 to 345.
With a byte available it is stored at the index unconditionally (the magic
comparison on the first byte is commented out in the source); index 7
completes a frame, which is dispatched and the index reset, otherwise the
timestamp is refreshed and the index advances. With no byte available, a
nonzero index whose idle time has expired emits TIMEOUT_ERROR and resets the
index. -/
def serialPoll (s : SerialState) (avail : Option Nat) (now : Nat) :
    SerialState × SerialAction :=
  match avail with
  | some b =>
    let buf := s.buffer.set s.index (b % 256)
    if s.index = 7 then
      ({ s with buffer := buf, index := 0 }, SerialAction.dispatch buf)
    else
      ({ buffer := buf, index := s.index + 1, last := now }, SerialAction.idle)
  | none =>
    if 0 < s.index ∧ is_micros_timed_out s.last CMD_SERIAL_TIMEOUT now = true then
      ({ s with index := 0 }, SerialAction.respond RESP_TIMEOUT_ERROR)
    else (s, SerialAction.idle)


/-- Bound transport for xor below 2 to the 16. -/
theorem xor_lt_65536 (a b : Nat) (ha : a < 65536) (hb : b < 65536) :
    a ^^^ b < 65536 := by
  have h : (65536 : Nat) = 2 ^ 16 := by norm_num
  rw [h] at ha hb ⊢
  exact Nat.xor_lt_two_pow ha hb

/-- Bound transport for xor below 256. -/
theorem xor_lt_256 (a b : Nat) (ha : a < 256) (hb : b < 256) :
    a ^^^ b < 256 := by
  have h : (256 : Nat) = 2 ^ 8 := by norm_num
  rw [h] at ha hb ⊢
  exact Nat.xor_lt_two_pow ha hb

/-- The source bit step written with division and parity. -/
theorem crcBit_eq (c : Nat) :
    crcBit c = c / 2 ^^^ (if c % 2 = 1 then 0xA001 else 0) := by
  unfold crcBit
  rw [Nat.and_one_is_mod, Nat.shiftRight_one]
  rcases Nat.mod_two_eq_zero_or_one c with h | h <;> simp [h]

/-- Cancellation helper for xor. -/
theorem xor_pair_cancel (x a y b : Nat) :
    (x ^^^ a) ^^^ (y ^^^ b) = (x ^^^ y) ^^^ (a ^^^ b) := by
  rw [Nat.xor_assoc, Nat.xor_assoc]
  congr 1
  rw [← Nat.xor_assoc, ← Nat.xor_assoc]
  congr 1
  exact Nat.xor_comm a y

/-- The bit step is additive over xor. -/
theorem crcBit_xor (a b : Nat) : crcBit (a ^^^ b) = crcBit a ^^^ crcBit b := by
  rw [crcBit_eq, crcBit_eq, crcBit_eq, Nat.xor_div_two, xor_pair_cancel]
  congr 1
  rcases Nat.mod_two_eq_zero_or_one a with ha | ha <;>
    rcases Nat.mod_two_eq_zero_or_one b with hb | hb <;>
      simp [Nat.xor_mod_two_eq_one, ha, hb] <;> omega

/-- Iterates of the bit step are additive over xor. -/
theorem crcBit_iterate_xor (n a b : Nat) :
    crcBit^[n] (a ^^^ b) = crcBit^[n] a ^^^ crcBit^[n] b := by
  induction n generalizing a b with
  | zero => rfl
  | succ n ih =>
    rw [Function.iterate_succ_apply, Function.iterate_succ_apply,
      Function.iterate_succ_apply, crcBit_xor, ih]

/-- Shifting the CRC state by a xor difference commutes with folding further
bytes; the difference evolves by eight bit steps per byte. -/
theorem foldl_crcByte_xor (l : List Nat) :
    ∀ s d : Nat, l.foldl crcByte (s ^^^ d)
      = l.foldl crcByte s ^^^ crcBit^[8 * l.length] d := by
  induction l with
  | nil => intro s d; simp
  | cons b t ih =>
    intro s d
    have hstep : crcByte (s ^^^ d) b = crcByte s b ^^^ crcBit^[8] d := by
      unfold crcByte
      rw [Nat.xor_assoc, Nat.xor_comm d (b % 256), ← Nat.xor_assoc,
        crcBit_iterate_xor]
    rw [List.foldl_cons, List.foldl_cons, hstep, ih]
    congr 1

/-- Flipping bits of one byte (both below 256) inside the CRC input shifts the
result by a computable xor difference. -/
theorem crc16_flip_at (l1 l2 : List Nat) (b e : Nat) (hb : b < 256)
    (he : e < 256) :
    crc16 (l1 ++ (b ^^^ e) :: l2)
      = crc16 (l1 ++ b :: l2) ^^^ crcBit^[8 * (l2.length + 1)] e := by
  unfold crc16
  rw [List.foldl_append, List.foldl_append, List.foldl_cons, List.foldl_cons]
  have hbe : (b ^^^ e) % 256 = b % 256 ^^^ e % 256 := by
    have h1 : b ^^^ e < 256 := xor_lt_256 _ _ hb he
    rw [Nat.mod_eq_of_lt h1, Nat.mod_eq_of_lt hb, Nat.mod_eq_of_lt he]
  have hstep : ∀ s : Nat, crcByte s (b ^^^ e) = crcByte s b ^^^ crcBit^[8] (e % 256) := by
    intro s
    unfold crcByte
    rw [hbe, ← Nat.xor_assoc, crcBit_iterate_xor]
  rw [hstep, foldl_crcByte_xor]
  rw [← Function.iterate_add_apply]
  rw [Nat.mod_eq_of_lt he]
  congr 1

/-- The bit step keeps the state below 2 to the 16. -/
theorem crcBit_lt (c : Nat) (h : c < 65536) : crcBit c < 65536 := by
  unfold crcBit
  split
  · rw [Nat.shiftRight_one]; omega
  · rw [Nat.shiftRight_one]
    exact xor_lt_65536 _ _ (by omega) (by norm_num)

/-- Iterated bit steps keep the state below 2 to the 16. -/
theorem crcBit_iterate_lt (n c : Nat) (h : c < 65536) : crcBit^[n] c < 65536 := by
  induction n generalizing c with
  | zero => simpa using h
  | succ n ih =>
    rw [Function.iterate_succ_apply]
    exact ih _ (crcBit_lt _ h)

/-- The byte step keeps the state below 2 to the 16. -/
theorem crcByte_lt (c b : Nat) (h : c < 65536) : crcByte c b < 65536 := by
  unfold crcByte
  apply crcBit_iterate_lt
  exact xor_lt_65536 _ _ h (by have := Nat.mod_lt b (y := 256) (by norm_num); omega)

/-- The CRC of any byte list is a 16 bit value. -/
theorem crc16_lt (l : List Nat) : crc16 l < 65536 := by
  unfold crc16
  generalize hinit : (0xFFFF : Nat) = s
  have hs : s < 65536 := by omega
  clear hinit
  induction l generalizing s with
  | nil => simpa using hs
  | cons b t ih =>
    rw [List.foldl_cons]
    exact ih _ (crcByte_lt _ _ hs)

/-- merge8 really inverts split16 on 16 bit values. -/
theorem merge8_split16 (x : Nat) (h : x < 65536) :
    merge8 (split16 x).1 (split16 x).2 = x := by
  unfold merge8 split16
  simp only
  have hx : x % 65536 = x := Nat.mod_eq_of_lt h
  rw [hx]
  have hsh : x >>> 8 = x / 256 := by
    rw [Nat.shiftRight_eq_div_pow]
  have hand : x &&& 0xFF = x % 256 := by
    have h8 := Nat.and_pow_two_sub_one_eq_mod x 8
    norm_num at h8
    omega
  rw [hsh, hand]
  have hdiv : x / 256 < 256 := by omega
  rw [Nat.mod_eq_of_lt hdiv, Nat.mod_eq_of_lt (Nat.mod_lt x (by norm_num))]
  rw [Nat.shiftLeft_eq, Nat.mul_comm]
  have hor := Nat.mul_add_lt_is_or (i := 8) (b := x % 256)
    (by have := Nat.mod_lt x (y := 256) (by norm_num); simpa using this) (x / 256)
  omega

/-- A frame formed by a 6 byte payload and its split CRC authenticates. -/
theorem frameCrcOk_append (p : List Nat) (hp : p.length = 6) :
    frameCrcOk (p ++ [(split16 (crc16 p)).1, (split16 (crc16 p)).2]) = true := by
  match p, hp with
  | [a0, a1, a2, a3, a4, a5], _ =>
    unfold frameCrcOk
    have h6 : ([a0, a1, a2, a3, a4, a5]
        ++ [(split16 (crc16 [a0, a1, a2, a3, a4, a5])).1,
            (split16 (crc16 [a0, a1, a2, a3, a4, a5])).2]).getD 6 0
        = (split16 (crc16 [a0, a1, a2, a3, a4, a5])).1 := rfl
    have h7 : ([a0, a1, a2, a3, a4, a5]
        ++ [(split16 (crc16 [a0, a1, a2, a3, a4, a5])).1,
            (split16 (crc16 [a0, a1, a2, a3, a4, a5])).2]).getD 7 0
        = (split16 (crc16 [a0, a1, a2, a3, a4, a5])).2 := rfl
    have ht : ([a0, a1, a2, a3, a4, a5]
        ++ [(split16 (crc16 [a0, a1, a2, a3, a4, a5])).1,
            (split16 (crc16 [a0, a1, a2, a3, a4, a5])).2]).take 6
        = [a0, a1, a2, a3, a4, a5] := rfl
    rw [h6, h7, ht, merge8_split16 _ (crc16_lt _)]
    simp

/-- The spec round coincides with the source bit step. -/
theorem arcRound_eq_crcBit : arcRound = crcBit := by
  funext c
  rw [crcBit_eq]
  unfold arcRound
  rcases Nat.mod_two_eq_zero_or_one c with h | h <;> simp [h]

/-- The spec rounds are iterates of the source bit step. -/
theorem arcRounds_eq (n c : Nat) : arcRounds n c = crcBit^[n] c := by
  induction n generalizing c with
  | zero => rfl
  | succ n ih =>
    rw [show arcRounds (n + 1) c = arcRounds n (arcRound c) from rfl, ih,
      arcRound_eq_crcBit, ← Function.iterate_succ_apply]

/-- The spec recursion coincides with the source fold. -/
theorem crc16SpecArcGo_eq (l : List Nat) :
    ∀ c : Nat, crc16SpecArcGo c l = l.foldl crcByte c := by
  induction l with
  | nil => intro c; rfl
  | cons b t ih =>
    intro c
    rw [show crc16SpecArcGo c (b :: t)
        = crc16SpecArcGo (arcRounds 8 (c ^^^ b % 256)) t from rfl,
      ih, List.foldl_cons, arcRounds_eq]
    rfl

/-- Xoring a nonzero value changes any Nat. -/
theorem xor_ne_self (a e : Nat) (he : e ≠ 0) : a ^^^ e ≠ a := by
  intro h
  apply he
  have h2 : a ^^^ (a ^^^ e) = a ^^^ a := by rw [h]
  rwa [← Nat.xor_assoc, Nat.xor_self, Nat.zero_xor] at h2

/-- Additive reading of merge8. -/
theorem merge8_eq_add (hi lo : Nat) :
    merge8 hi lo = (hi % 256) * 256 + lo % 256 := by
  unfold merge8
  rw [Nat.shiftLeft_eq, Nat.mul_comm]
  have hor := Nat.mul_add_lt_is_or (i := 8) (b := lo % 256)
    (by have := Nat.mod_lt lo (y := 256) (by norm_num); simpa using this)
    (hi % 256)
  omega

/-- The high half produced by split16 is a byte. -/
theorem split16_fst_lt (x : Nat) : (split16 x).1 < 256 := by
  unfold split16
  simp only
  rw [Nat.shiftRight_eq_div_pow]
  have := Nat.mod_lt x (y := 65536) (by norm_num)
  omega

/-- The low half produced by split16 is a byte. -/
theorem split16_snd_lt (x : Nat) : (split16 x).2 < 256 := by
  unfold split16
  simp only
  have h8 := Nat.and_pow_two_sub_one_eq_mod x 8
  norm_num at h8
  have := Nat.mod_lt x (y := 256) (by norm_num)
  omega

/-- Any power of two below the eighth is a byte. -/
theorem two_pow_lt_256 (j : Nat) (hj : j < 8) : 2 ^ j < 256 := by
  have h := Nat.pow_le_pow_right (n := 2) (by norm_num) (show j ≤ 7 by omega)
  norm_num at h
  omega

/-- Seeds 2 to the j survive the bit step iterations used below. -/
theorem crcBit_iterate_two_pow_ne_zero :
    ∀ j < 8, ∀ i < 6, crcBit^[8 * (6 - i)] (2 ^ j) ≠ 0 := by decide

/-- A single byte flip in the CRC input breaks agreement with the stored
checksum. -/
theorem flip_payload_fail (l1 l2 : List Nat) (b e : Nat) (hb : b < 256)
    (he : e < 256) (hD : crcBit^[8 * (l2.length + 1)] e ≠ 0) :
    (crc16 (l1 ++ (b ^^^ e) :: l2) == crc16 (l1 ++ b :: l2)) = false := by
  rw [crc16_flip_at l1 l2 b e hb he]
  simp only [beq_eq_false_iff_ne, ne_eq]
  intro h
  exact xor_ne_self (crc16 (l1 ++ b :: l2)) _ hD (by omega)

/-- Claim C2: crc16 implements the spec checksum (init 0xFFFF, per byte xor,
eight LSB first shift iterations with polynomial 0xA001, no final xor); for
every 6 byte payload, appending the split16 of its CRC as bytes 6 and 7 gives
an 8 byte frame on which CRC verification succeeds; and flipping any single
bit of any of the 8 bytes makes verification fail. -/
theorem c2_crc16_arc_roundtrip_bitflip :
    (∀ l : List Nat, crc16 l = crc16SpecArc l) ∧
    (∀ p : List Nat, p.length = 6 →
      frameCrcOk (p ++ [(split16 (crc16 p)).1, (split16 (crc16 p)).2]) = true) ∧
    (∀ p : List Nat, p.length = 6 → (∀ b ∈ p, b < 256) →
      ∀ i, i < 8 → ∀ j, j < 8 →
      frameCrcOk ((p ++ [(split16 (crc16 p)).1, (split16 (crc16 p)).2]).set i
        (((p ++ [(split16 (crc16 p)).1, (split16 (crc16 p)).2]).getD i 0)
          ^^^ 2 ^ j)) = false) := by
  refine ⟨?_, ?_, ?_⟩
  · intro l
    show crc16 l = crc16SpecArcGo 0xFFFF l
    rw [crc16SpecArcGo_eq]
    rfl
  · exact frameCrcOk_append
  · intro p hp hbytes
    revert hbytes
    match p, hp with
    | [a0, a1, a2, a3, a4, a5], _ =>
      intro hbytes i hi j hj
      have h0 : a0 < 256 := hbytes a0 (by simp)
      have h1 : a1 < 256 := hbytes a1 (by simp)
      have h2 : a2 < 256 := hbytes a2 (by simp)
      have h3 : a3 < 256 := hbytes a3 (by simp)
      have h4 : a4 < 256 := hbytes a4 (by simp)
      have h5 : a5 < 256 := hbytes a5 (by simp)
      set C := crc16 [a0, a1, a2, a3, a4, a5] with hC
      have hClt : C < 65536 := by rw [hC]; exact crc16_lt _
      have hml : merge8 (split16 C).1 (split16 C).2 = C := merge8_split16 C hClt
      have hh : (split16 C).1 < 256 := split16_fst_lt C
      have hl : (split16 C).2 < 256 := split16_snd_lt C
      have hele : 2 ^ j < 256 := two_pow_lt_256 j hj
      have hene : 2 ^ j ≠ 0 := Nat.pos_iff_ne_zero.mp (Nat.pow_pos (by norm_num))
      interval_cases i
      · show (crc16 ([] ++ (a0 ^^^ 2 ^ j) :: [a1, a2, a3, a4, a5])
            == merge8 (split16 C).1 (split16 C).2) = false
        rw [hml, hC]
        exact flip_payload_fail [] [a1, a2, a3, a4, a5] a0 (2 ^ j) h0 hele
          (crcBit_iterate_two_pow_ne_zero j hj 0 (by norm_num))
      · show (crc16 ([a0] ++ (a1 ^^^ 2 ^ j) :: [a2, a3, a4, a5])
            == merge8 (split16 C).1 (split16 C).2) = false
        rw [hml, hC]
        exact flip_payload_fail [a0] [a2, a3, a4, a5] a1 (2 ^ j) h1 hele
          (crcBit_iterate_two_pow_ne_zero j hj 1 (by norm_num))
      · show (crc16 ([a0, a1] ++ (a2 ^^^ 2 ^ j) :: [a3, a4, a5])
            == merge8 (split16 C).1 (split16 C).2) = false
        rw [hml, hC]
        exact flip_payload_fail [a0, a1] [a3, a4, a5] a2 (2 ^ j) h2 hele
          (crcBit_iterate_two_pow_ne_zero j hj 2 (by norm_num))
      · show (crc16 ([a0, a1, a2] ++ (a3 ^^^ 2 ^ j) :: [a4, a5])
            == merge8 (split16 C).1 (split16 C).2) = false
        rw [hml, hC]
        exact flip_payload_fail [a0, a1, a2] [a4, a5] a3 (2 ^ j) h3 hele
          (crcBit_iterate_two_pow_ne_zero j hj 3 (by norm_num))
      · show (crc16 ([a0, a1, a2, a3] ++ (a4 ^^^ 2 ^ j) :: [a5])
            == merge8 (split16 C).1 (split16 C).2) = false
        rw [hml, hC]
        exact flip_payload_fail [a0, a1, a2, a3] [a5] a4 (2 ^ j) h4 hele
          (crcBit_iterate_two_pow_ne_zero j hj 4 (by norm_num))
      · show (crc16 ([a0, a1, a2, a3, a4] ++ (a5 ^^^ 2 ^ j) :: [])
            == merge8 (split16 C).1 (split16 C).2) = false
        rw [hml, hC]
        exact flip_payload_fail [a0, a1, a2, a3, a4] [] a5 (2 ^ j) h5 hele
          (crcBit_iterate_two_pow_ne_zero j hj 5 (by norm_num))
      · show (crc16 [a0, a1, a2, a3, a4, a5]
            == merge8 ((split16 C).1 ^^^ 2 ^ j) (split16 C).2) = false
        rw [← hC]
        simp only [beq_eq_false_iff_ne, ne_eq]
        intro heq
        have hA := merge8_eq_add ((split16 C).1 ^^^ 2 ^ j) (split16 C).2
        have hB := merge8_eq_add (split16 C).1 (split16 C).2
        have hxl : (split16 C).1 ^^^ 2 ^ j < 256 := xor_lt_256 _ _ hh hele
        rw [Nat.mod_eq_of_lt hxl] at hA
        rw [Nat.mod_eq_of_lt hh] at hB
        have hne := xor_ne_self ((split16 C).1) (2 ^ j) hene
        omega
      · show (crc16 [a0, a1, a2, a3, a4, a5]
            == merge8 (split16 C).1 ((split16 C).2 ^^^ 2 ^ j)) = false
        rw [← hC]
        simp only [beq_eq_false_iff_ne, ne_eq]
        intro heq
        have hA := merge8_eq_add (split16 C).1 ((split16 C).2 ^^^ 2 ^ j)
        have hB := merge8_eq_add (split16 C).1 (split16 C).2
        have hxl : (split16 C).2 ^^^ 2 ^ j < 256 := xor_lt_256 _ _ hl hele
        rw [Nat.mod_eq_of_lt hxl, Nat.mod_eq_of_lt hh] at hA
        rw [Nat.mod_eq_of_lt hh, Nat.mod_eq_of_lt hl] at hB
        have hne := xor_ne_self ((split16 C).2) (2 ^ j) hene
        omega

/-- Witness for claim C2 at the payload 1 2 3 4 5 6, flipping bit 0 of
byte 0. -/
theorem c2_crc16_arc_roundtrip_bitflip_witness :
    frameCrcOk ([1, 2, 3, 4, 5, 6]
      ++ [(split16 (crc16 [1, 2, 3, 4, 5, 6])).1,
          (split16 (crc16 [1, 2, 3, 4, 5, 6])).2]) = true ∧
    frameCrcOk (([1, 2, 3, 4, 5, 6]
      ++ [(split16 (crc16 [1, 2, 3, 4, 5, 6])).1,
          (split16 (crc16 [1, 2, 3, 4, 5, 6])).2]).set 0
        ((([1, 2, 3, 4, 5, 6]
      ++ [(split16 (crc16 [1, 2, 3, 4, 5, 6])).1,
          (split16 (crc16 [1, 2, 3, 4, 5, 6])).2]).getD 0 0) ^^^ 2 ^ 0)) = false :=
  ⟨c2_crc16_arc_roundtrip_bitflip.2.1 [1, 2, 3, 4, 5, 6] (by decide),
   c2_crc16_arc_roundtrip_bitflip.2.2 [1, 2, 3, 4, 5, 6] (by decide)
     (by decide) 0 (by decide) 0 (by decide)⟩

/-- On a nonzero code whose OK bit is clear, the response payload is the
magic, the code itself and four zero bytes. -/
theorem sendResponsePayload_error (cfg : FirmwareConfig) (st : DeviceState)
    (codeArg prevArg : Nat) (h1 : ¬ codeArg % 256 = 0)
    (h2 : (codeArg % 256) &&& PONG_OK = 0) :
    sendResponsePayload cfg st codeArg prevArg
      = [PROTO_MAGIC_RESP, codeArg % 256, 0, 0, 0, 0] := by
  show ([PROTO_MAGIC_RESP,
    (if (if codeArg % 256 = 0 then prevArg % 256 else codeArg % 256) &&& PONG_OK ≠ 0
      then _ else ((if codeArg % 256 = 0 then prevArg % 256 else codeArg % 256), 0, 0)).1,
    _, _, 0, 0] : List Nat) = _
  rw [if_neg h1, h2]
  rw [if_neg (fun hh => hh rfl)]

/-- On the zero code with the boot prev code RESP NONE, the response payload
is the magic and five zero bytes. -/
theorem sendResponsePayload_boot_repeat (cfg : FirmwareConfig) (st : DeviceState) :
    sendResponsePayload cfg st 0 RESP_NONE
      = [PROTO_MAGIC_RESP, 0, 0, 0, 0, 0] := by
  show ([PROTO_MAGIC_RESP,
    (if (if (0 : Nat) % 256 = 0 then RESP_NONE % 256 else 0 % 256) &&& PONG_OK ≠ 0
      then _ else ((if (0 : Nat) % 256 = 0 then RESP_NONE % 256 else 0 % 256), 0, 0)).1,
    _, _, 0, 0] : List Nat) = _
  rw [if_pos (show (0 : Nat) % 256 = 0 by norm_num)]
  rw [show (RESP_NONE % 256 : Nat) = 0 by decide]
  rw [if_neg (show ¬ ((0 : Nat) &&& PONG_OK ≠ 0) by decide)]

/-- Claim C1: a request frame failing CRC authentication runs no handler and
yields RESP CRC_ERROR; a CRC valid frame whose opcode byte is outside 0x01 to
0x05 and 0x10 to 0x15 runs no handler and yields RESP INVALID_ERROR; every
response frame built by sendResponse carries in bytes 6 and 7 a CRC over its
bytes 0 to 5 that verifies; and the two error codes really appear as byte 1 of
their responses. -/
theorem c1_dispatch_crc_discipline :
    (∀ f : List Nat, frameCrcOk f = false →
      handleRequest f = (RESP_CRC_ERROR, none)) ∧
    (∀ f : List Nat, frameCrcOk f = true →
      (f.getD 1 0 < 0x01 ∨ (0x05 < f.getD 1 0 ∧ f.getD 1 0 < 0x10)
        ∨ 0x15 < f.getD 1 0) →
      handleRequest f = (RESP_INVALID_ERROR, none)) ∧
    (∀ cfg st codeArg prevArg,
      frameCrcOk (sendResponse cfg st codeArg prevArg).1 = true) ∧
    (∀ cfg st prevArg,
      ((sendResponse cfg st RESP_CRC_ERROR prevArg).1).getD 1 0 = RESP_CRC_ERROR ∧
      ((sendResponse cfg st RESP_INVALID_ERROR prevArg).1).getD 1 0
        = RESP_INVALID_ERROR) := by
  refine ⟨?_, ?_, ?_, ?_⟩
  · intro f hcrc
    simp [handleRequest, hcrc]
  · intro f hcrc hop
    unfold handleRequest
    rw [if_pos hcrc]
    generalize hgen : f.getD 1 0 = op
    rw [hgen] at hop
    simp only [CMD_PING, CMD_SET_KEYBOARD, CMD_SET_MOUSE, CMD_SET_CONNECTED,
      CMD_CLEAR_HID, CMD_KEYBOARD_KEY, CMD_MOUSE_BUTTON, CMD_MOUSE_MOVE,
      CMD_MOUSE_RELATIVE, CMD_MOUSE_WHEEL, CMD_REPEAT]
    iterate 11 rw [if_neg (by omega)]
  · intro cfg st codeArg prevArg
    show frameCrcOk (sendResponsePayload cfg st codeArg prevArg
      ++ [(split16 (crc16 (sendResponsePayload cfg st codeArg prevArg))).1,
          (split16 (crc16 (sendResponsePayload cfg st codeArg prevArg))).2]) = true
    exact frameCrcOk_append _ rfl
  · intro cfg st prevArg
    have hc := sendResponsePayload_error cfg st RESP_CRC_ERROR prevArg
      (by decide) (by decide)
    have hi := sendResponsePayload_error cfg st RESP_INVALID_ERROR prevArg
      (by decide) (by decide)
    constructor
    · show (sendResponsePayload cfg st RESP_CRC_ERROR prevArg
        ++ [(split16 (crc16 (sendResponsePayload cfg st RESP_CRC_ERROR prevArg))).1,
            (split16 (crc16 (sendResponsePayload cfg st RESP_CRC_ERROR prevArg))).2]).getD 1 0
        = RESP_CRC_ERROR
      rw [hc]
      decide
    · show (sendResponsePayload cfg st RESP_INVALID_ERROR prevArg
        ++ [(split16 (crc16 (sendResponsePayload cfg st RESP_INVALID_ERROR prevArg))).1,
            (split16 (crc16 (sendResponsePayload cfg st RESP_INVALID_ERROR prevArg))).2]).getD 1 0
        = RESP_INVALID_ERROR
      rw [hi]
      decide

/-- Witness for claim C1: a PING frame with a zeroed checksum fails the CRC
check, and a CRC valid frame with opcode 0xFF is rejected as invalid; the
response builder output is checked at one concrete configuration. -/
theorem c1_dispatch_crc_discipline_witness :
    handleRequest [0x33, 0x01, 0, 0, 0, 0, 0, 0] = (RESP_CRC_ERROR, none) ∧
    handleRequest [0x33, 0xFF, 0, 0, 0, 0, 204, 17] = (RESP_INVALID_ERROR, none) ∧
    frameCrcOk (sendResponse ⟨true, false, true, false, true⟩
      ⟨KeyboardType.usbKeyboard, false, true, false, false,
        MouseType.usbMouseAbsolute, false, false, false⟩
      PONG_OK RESP_NONE).1 = true :=
  ⟨c1_dispatch_crc_discipline.1 _ (by decide),
   c1_dispatch_crc_discipline.2.1 _ (by decide) (by decide),
   c1_dispatch_crc_discipline.2.2.1 _ _ _ _⟩

/-- Claim C3: a CRC valid REPEAT request makes handleRequest return the code 0
with no handler run; sendResponse on the code 0 behaves exactly as if called
with the stored prev code (so the previous nonzero status is re sent and prev
code is unchanged); and before any prior response, with prev code at its boot
value RESP NONE, byte 1 of the response is RESP NONE, that is 0x00. -/
theorem c3_repeat_prev_code :
    (∀ f : List Nat, frameCrcOk f = true → f.getD 1 0 = CMD_REPEAT →
      handleRequest f = (0, none)) ∧
    (∀ cfg st prevArg,
      sendResponse cfg st 0 prevArg = sendResponse cfg st prevArg prevArg) ∧
    (∀ cfg st,
      ((sendResponse cfg st 0 RESP_NONE).1).getD 1 0 = RESP_NONE) := by
  refine ⟨?_, ?_, ?_⟩
  · intro f hcrc hop
    unfold handleRequest
    rw [if_pos hcrc]
    generalize hgen : f.getD 1 0 = op
    rw [hgen] at hop
    simp only [CMD_REPEAT] at hop
    simp only [CMD_PING, CMD_SET_KEYBOARD, CMD_SET_MOUSE, CMD_SET_CONNECTED,
      CMD_CLEAR_HID, CMD_KEYBOARD_KEY, CMD_MOUSE_BUTTON, CMD_MOUSE_MOVE,
      CMD_MOUSE_RELATIVE, CMD_MOUSE_WHEEL, CMD_REPEAT]
    iterate 10 rw [if_neg (by omega)]
    rw [if_pos (by omega)]
  · intro cfg st prevArg
    unfold sendResponse
    have hpay : sendResponsePayload cfg st 0 prevArg
        = sendResponsePayload cfg st prevArg prevArg := by
      by_cases h : prevArg % 256 = 0 <;> simp [sendResponsePayload, h]
    have hprev : sendResponsePrev 0 prevArg = sendResponsePrev prevArg prevArg := by
      by_cases h : prevArg % 256 = 0 <;> simp [sendResponsePrev, h]
    rw [hpay, hprev]
  · intro cfg st
    have hb := sendResponsePayload_boot_repeat cfg st
    show (sendResponsePayload cfg st 0 RESP_NONE
      ++ [(split16 (crc16 (sendResponsePayload cfg st 0 RESP_NONE))).1,
          (split16 (crc16 (sendResponsePayload cfg st 0 RESP_NONE))).2]).getD 1 0
      = RESP_NONE
    rw [hb]
    decide

/-- Witness for claim C3 at a concrete CRC valid REPEAT frame and a concrete
configuration. -/
theorem c3_repeat_prev_code_witness :
    handleRequest [0x33, 0x02, 0, 0, 0, 0, 24, 124] = (0, none) ∧
    sendResponse ⟨true, false, true, false, true⟩
      ⟨KeyboardType.usbKeyboard, false, true, false, false,
        MouseType.usbMouseAbsolute, false, false, false⟩ 0 0x45
      = sendResponse ⟨true, false, true, false, true⟩
      ⟨KeyboardType.usbKeyboard, false, true, false, false,
        MouseType.usbMouseAbsolute, false, false, false⟩ 0x45 0x45 :=
  ⟨c3_repeat_prev_code.1 _ (by decide) (by decide),
   c3_repeat_prev_code.2.1 _ _ 0x45⟩

/-- The clamped record byte is below 256. -/
theorem oldOutputs_lt (store : List Nat) : oldOutputs store < 256 := by
  unfold oldOutputs readOutputs
  split
  · simp
  · simp only [Int.toNat_ofNat]
    exact Nat.mod_lt _ (by norm_num)

/-- Keyboard nibble arithmetic on bytes, checked exhaustively. -/
theorem kbd_nibble_facts :
    ∀ a, a < 256 → ∀ m, m < 8 →
      (((a &&& 248) ||| m) &&& 7 = m
        ∧ ((a &&& 248) ||| m) &&& 56 = a &&& 56
        ∧ (a &&& 248) ||| m < 256) := by decide

/-- Counterexample for claim C4 as stated: with an empty record (old byte 0),
mask 0x07 and bits 0x08, the source stores (old and not mask) or bits, that
is 0x08, while the claim formula (old and not mask) or (bits and mask)
gives 0. -/
theorem c4_writeOutputs_counterexample :
    (writeOutputs [0, 0, 0, 0, 0, 0, 0, 0] 0x07 0x08 false).getD 1 0 = 0x08 ∧
    ((oldOutputs [0, 0, 0, 0, 0, 0, 0, 0] &&& (255 ^^^ 0x07)) ||| (0x08 &&& 0x07)) = 0 ∧
    (0x08 : Nat) ≠ 0 := by decide

/-- Claim C4 amended: writeOutputs without force stores the byte
(old and not mask) or bits, with no masking of the bits argument (when the
bits lie inside the mask this coincides with the claimed read modify write
formula); old defaults to 0 when the stored record fails validation; and
consequently writing a keyboard mask M (a value inside the keyboard mask
0x07) then reading yields M in the keyboard bits while the mouse bits of the
record are preserved. -/
theorem c4_writeOutputs_amended :
    (∀ store : List Nat, ∀ mask outputs : Nat, mask < 256 → outputs < 256 →
      (writeOutputs store mask outputs false).getD 1 0
        = (oldOutputs store &&& (255 ^^^ mask)) ||| outputs) ∧
    (∀ store : List Nat, ∀ M : Nat, M &&& OUTPUTS1_KEYBOARD_MASK = M →
      readOutputs (writeOutputs store OUTPUTS1_KEYBOARD_MASK M false)
          = Int.ofNat ((oldOutputs store &&& (255 ^^^ OUTPUTS1_KEYBOARD_MASK)) ||| M)
        ∧ ((oldOutputs store &&& (255 ^^^ OUTPUTS1_KEYBOARD_MASK)) ||| M)
            &&& OUTPUTS1_KEYBOARD_MASK = M
        ∧ ((oldOutputs store &&& (255 ^^^ OUTPUTS1_KEYBOARD_MASK)) ||| M)
            &&& OUTPUTS1_MOUSE_MASK = oldOutputs store &&& OUTPUTS1_MOUSE_MASK) := by
  constructor
  · intro store mask outputs hm ho
    have hred : (writeOutputs store mask outputs false).getD 1 0
        = (oldOutputs store &&& (255 ^^^ mask % 256)) ||| outputs % 256 := rfl
    rw [hred, Nat.mod_eq_of_lt hm, Nat.mod_eq_of_lt ho]
  · intro store M hM
    have hM8 : M < 8 := by
      have h1 : M &&& OUTPUTS1_KEYBOARD_MASK ≤ OUTPUTS1_KEYBOARD_MASK := Nat.and_le_right
      rw [hM] at h1
      have h2 : OUTPUTS1_KEYBOARD_MASK = 7 := rfl
      omega
    have holt := oldOutputs_lt store
    have hmask : (255 ^^^ OUTPUTS1_KEYBOARD_MASK % 256 : Nat) = 248 := by decide
    have hM256 : M % 256 = M := Nat.mod_eq_of_lt (by omega)
    have hfacts := kbd_nibble_facts (oldOutputs store) holt M hM8
    have hb1 : ((oldOutputs store &&& (255 ^^^ OUTPUTS1_KEYBOARD_MASK % 256)) ||| M % 256)
        = (oldOutputs store &&& 248) ||| M := by rw [hmask, hM256]
    have hmask2 : (255 ^^^ OUTPUTS1_KEYBOARD_MASK : Nat) = 248 := by decide
    have hwrite : writeOutputs store OUTPUTS1_KEYBOARD_MASK M false
        = [PROTO_MAGIC, (oldOutputs store &&& (255 ^^^ OUTPUTS1_KEYBOARD_MASK % 256)) ||| M % 256, 0, 0, 0, 0]
          ++ [(split16 (crc16 [PROTO_MAGIC,
                (oldOutputs store &&& (255 ^^^ OUTPUTS1_KEYBOARD_MASK % 256)) ||| M % 256,
                0, 0, 0, 0])).1,
              (split16 (crc16 [PROTO_MAGIC,
                (oldOutputs store &&& (255 ^^^ OUTPUTS1_KEYBOARD_MASK % 256)) ||| M % 256,
                0, 0, 0, 0])).2] := rfl
    rw [hwrite, hb1]
    set b1 := (oldOutputs store &&& 248) ||| M with hb1def
    have hb1lt : b1 < 256 := hfacts.2.2
    have hread : readOutputs ([PROTO_MAGIC, b1, 0, 0, 0, 0]
        ++ [(split16 (crc16 [PROTO_MAGIC, b1, 0, 0, 0, 0])).1,
            (split16 (crc16 [PROTO_MAGIC, b1, 0, 0, 0, 0])).2])
        = Int.ofNat (b1 % 256) := by
      unfold readOutputs
      rw [if_neg]
      · rfl
      · push_neg
        constructor
        · norm_num [PROTO_MAGIC]
        · have htk : ([PROTO_MAGIC, b1, 0, 0, 0, 0]
              ++ [(split16 (crc16 [PROTO_MAGIC, b1, 0, 0, 0, 0])).1,
                  (split16 (crc16 [PROTO_MAGIC, b1, 0, 0, 0, 0])).2]).take 6
              = [PROTO_MAGIC, b1, 0, 0, 0, 0] := rfl
          have h6 : ([PROTO_MAGIC, b1, 0, 0, 0, 0]
              ++ [(split16 (crc16 [PROTO_MAGIC, b1, 0, 0, 0, 0])).1,
                  (split16 (crc16 [PROTO_MAGIC, b1, 0, 0, 0, 0])).2]).getD 6 0
              = (split16 (crc16 [PROTO_MAGIC, b1, 0, 0, 0, 0])).1 := rfl
          have h7 : ([PROTO_MAGIC, b1, 0, 0, 0, 0]
              ++ [(split16 (crc16 [PROTO_MAGIC, b1, 0, 0, 0, 0])).1,
                  (split16 (crc16 [PROTO_MAGIC, b1, 0, 0, 0, 0])).2]).getD 7 0
              = (split16 (crc16 [PROTO_MAGIC, b1, 0, 0, 0, 0])).2 := rfl
          rw [htk, h6, h7, merge8_split16 _ (crc16_lt _)]
    rw [hread, Nat.mod_eq_of_lt hb1lt]
    refine ⟨rfl, ?_, ?_⟩
    · rw [show (OUTPUTS1_KEYBOARD_MASK : Nat) = 7 from rfl]
      exact hfacts.1
    · rw [show (OUTPUTS1_MOUSE_MASK : Nat) = 56 from rfl]
      exact hfacts.2.1

/-- Witness for the amended claim C4: an invalid all zero record, keyboard
mask writes of 0x02. -/
theorem c4_writeOutputs_amended_witness :
    (writeOutputs [0, 0, 0, 0, 0, 0, 0, 0] 0x07 0x02 false).getD 1 0
      = (oldOutputs [0, 0, 0, 0, 0, 0, 0, 0] &&& (255 ^^^ 0x07)) ||| 0x02 ∧
    readOutputs (writeOutputs [0, 0, 0, 0, 0, 0, 0, 0] OUTPUTS1_KEYBOARD_MASK 0x02 false)
      = Int.ofNat ((oldOutputs [0, 0, 0, 0, 0, 0, 0, 0]
          &&& (255 ^^^ OUTPUTS1_KEYBOARD_MASK)) ||| 0x02) :=
  ⟨(c4_writeOutputs_amended.1 [0, 0, 0, 0, 0, 0, 0, 0] 0x07 0x02
      (by decide) (by decide)),
   (c4_writeOutputs_amended.2 [0, 0, 0, 0, 0, 0, 0, 0] 0x02 (by decide)).1⟩

/-- Counterexample for claim C5 as stated: the translation table has 116
entries, not 118, so for hid code 116 (which is below 118 and different from
0x48) the source enqueues nothing instead of the claimed prefix plus mapped
byte. -/
theorem c5_send_key_range_counterexample :
    ph_ps2_kbd_send_key 116 true = [] ∧ (116 : Nat) < 118 ∧ (116 : Nat) ≠ 0x48 ∧
    ph_ps2_kbd_send_key 116 true
      ≠ ph_ps2_kbd_maybe_send_e0 116 ++ [ph_ps2_hid2ps2.getD 116 0] := by decide

/-- Claim C5 amended: the claimed byte sequences hold with the table bound
116 (the actual size of ph_ps2_hid2ps2) in place of 118. For modifier codes
0xE0 to 0xE7 the prefix 0xE0 is enqueued iff the code is one of 0xE3, 0xE4,
0xE6, 0xE7, then 0xF0 iff released, then the modifier table byte; for codes
below 116 other than 0x48 the prefix 0xE0 is enqueued iff the code lies in
the closed set of the claim, then 0xF0 iff released, then the table byte;
and the three concrete examples of the claim hold. -/
theorem c5_send_key_mapping :
    ∀ key : Nat, key ≤ 0xe7 → ∀ state : Bool,
      (0xe0 ≤ key →
        ph_ps2_kbd_send_key key state
          = (if key = 0xe3 ∨ key = 0xe4 ∨ key = 0xe6 ∨ key = 0xe7
              then [0xe0] else [])
            ++ (if state then [] else [0xf0])
            ++ [ph_ps2_mod2ps2.getD (key - 0xe0) 0]) ∧
      (key < 116 → key ≠ 0x48 →
        ph_ps2_kbd_send_key key state
          = (if key = 0x46 ∨ (0x49 ≤ key ∧ key ≤ 0x52) ∨ key = 0x54 ∨ key = 0x58
                ∨ key = 0x65 ∨ key = 0x66 ∨ 0x81 ≤ key
              then [0xe0] else [])
            ++ (if state then [] else [0xf0])
            ++ [ph_ps2_hid2ps2.getD key 0]) ∧
      ph_ps2_kbd_send_key 0x04 true = [0x1c] ∧
      ph_ps2_kbd_send_key 0x49 false = [0xe0, 0xf0, 0x70] ∧
      ph_ps2_kbd_send_key 0xe5 true = [0x59] := by decide

/-- Witness for claim C5 at the right shift modifier 0xE5, pressed. -/
theorem c5_send_key_mapping_witness :
    ph_ps2_kbd_send_key 0xe5 true
      = (if (0xe5 : Nat) = 0xe3 ∨ (0xe5 : Nat) = 0xe4 ∨ (0xe5 : Nat) = 0xe6
            ∨ (0xe5 : Nat) = 0xe7
          then [0xe0] else [])
        ++ (if true then [] else [0xf0])
        ++ [ph_ps2_mod2ps2.getD (0xe5 - 0xe0) 0] :=
  (c5_send_key_mapping 0xe5 (by decide) true).1 (by decide)

/-- Claim C6 is right and the code is wrong: after host command 0xED the next
received byte is ACKed with 0xFA but never stored into ph_g_ps2_kbd_leds; the
source never assigns that global (its update is an open TODO in ph_ps2_task),
so after receiving 0xED then 0x07 the leds value is still 0, not 0x07. -/
theorem c6_set_leds_unimplemented :
    ph_ps2_kbd_receive 0 0xed = (0, [0xfa]) ∧
    ph_ps2_kbd_receive (ph_ps2_kbd_receive 0 0xed).1 0x07 = (0, [0xfa]) ∧
    (ph_ps2_kbd_receive (ph_ps2_kbd_receive 0 0xed).1 0x07).1 ≠ 0x07 := by decide

/-- Counterexample for claim C7 as stated: the fixed sequence enqueued on a
press of hid code 0x48 has 8 bytes, not 4. -/
theorem c7_pause_length_counterexample :
    ph_ps2_kbd_send_key 0x48 true = [0xe1, 0x14, 0x77, 0xe1, 0xf0, 0x14, 0xf0, 0x77] ∧
    (ph_ps2_kbd_send_key 0x48 true).length = 8 ∧
    (ph_ps2_kbd_send_key 0x48 true).length ≠ 4 := by decide

/-- Claim C7 amended: a press of hid code 0x48 enqueues exactly the 8 byte
fixed sequence E1 14 77 E1 F0 14 F0 77 (the shift variant of the source is
behind a literal false), and a release of 0x48 enqueues nothing. -/
theorem c7_pause_sequence :
    ph_ps2_kbd_send_key 0x48 true
      = [0xe1, 0x14, 0x77, 0xe1, 0xf0, 0x14, 0xf0, 0x77] ∧
    ph_ps2_kbd_send_key 0x48 false = [] := by decide

/-- Below 232 the checked translation agrees with the source translation. -/
theorem send_key_checked_agrees_below :
    ∀ key, key < 232 → ∀ state : Bool,
      ph_ps2_kbd_send_key_checked key state
        = some (ph_ps2_kbd_send_key key state) := by decide

/-- Claim C10: hid codes from 118 up that are not modifier codes enqueue
nothing (in the source everything from the table size 116 up already does),
and on every input every table access of ph_ps2_kbd_send_key is in bounds:
the checked variant never aborts and agrees with the source function. -/
theorem c10_send_key_total :
    (∀ key : Nat, ∀ state : Bool, 118 ≤ key → (key < 0xe0 ∨ 0xe7 < key) →
      ph_ps2_kbd_send_key key state = []) ∧
    (∀ key : Nat, ∀ state : Bool,
      ph_ps2_kbd_send_key_checked key state
        = some (ph_ps2_kbd_send_key key state)) := by
  have hmap : ph_ps2_maparray = 116 := rfl
  constructor
  · intro key state h1 h2
    unfold ph_ps2_kbd_send_key
    rw [if_neg (by omega), if_neg (by omega)]
  · intro key state
    by_cases h : key < 232
    · exact send_key_checked_agrees_below key h state
    · unfold ph_ps2_kbd_send_key ph_ps2_kbd_send_key_checked
      rw [if_neg (show ¬ (0xe0 ≤ key ∧ key ≤ 0xe7) by omega),
        if_neg (show ¬ key < ph_ps2_maparray by omega),
        if_neg (show ¬ (0xe0 ≤ key ∧ key ≤ 0xe7) by omega),
        if_neg (show ¬ key < ph_ps2_maparray by omega)]

/-- Witness for claim C10 at hid code 150, pressed. -/
theorem c10_send_key_total_witness :
    ph_ps2_kbd_send_key 150 true = [] :=
  c10_send_key_total.1 150 true (by decide) (by decide)

/-- Claim C8: spiReady is true iff the first out byte is 0 and the in index
is 8; and in egress mode (first out byte nonzero, out index below 8) the ISR
step loads SPDR from out at the out index, leaves everything unchanged on a
write collision, advances only the out index when the advance stays below 8,
and exactly upon reaching 8 resets both indices to 0 and clears the first out
byte. -/
theorem c8_spi_framer :
    (∀ s : SpiState, spiReady s = true ↔ (s.outBuf.getD 0 0 = 0 ∧ s.inIndex = 8)) ∧
    (∀ s : SpiState, ∀ input : Nat, ∀ wcol : Bool,
      s.outBuf.getD 0 0 ≠ 0 → s.outIndex < 8 →
      ((spiIsrStep s input wcol).spdr = s.outBuf.getD s.outIndex 0) ∧
      (wcol = true →
        (spiIsrStep s input wcol).outIndex = s.outIndex
          ∧ (spiIsrStep s input wcol).inIndex = s.inIndex
          ∧ (spiIsrStep s input wcol).outBuf = s.outBuf) ∧
      (wcol = false → s.outIndex + 1 < 8 →
        (spiIsrStep s input wcol).outIndex = s.outIndex + 1
          ∧ (spiIsrStep s input wcol).inIndex = s.inIndex
          ∧ (spiIsrStep s input wcol).outBuf = s.outBuf) ∧
      (wcol = false → s.outIndex = 7 →
        (spiIsrStep s input wcol).outIndex = 0
          ∧ (spiIsrStep s input wcol).inIndex = 0
          ∧ (spiIsrStep s input wcol).outBuf.getD 0 0 = 0)) := by
  constructor
  · intro s
    unfold spiReady
    simp [Bool.and_eq_true, beq_iff_eq]
  · intro s input wcol h0 hlt
    unfold spiIsrStep
    rw [if_pos ⟨h0, hlt⟩]
    cases wcol with
    | true =>
      refine ⟨rfl, ?_, ?_, ?_⟩
      · intro _
        exact ⟨rfl, rfl, rfl⟩
      · intro hfalse _
        exact absurd hfalse (by simp)
      · intro hfalse _
        exact absurd hfalse (by simp)
    | false =>
      by_cases h8 : s.outIndex + 1 = 8
      · rw [show (!false) = true from rfl, if_pos rfl, if_pos h8]
        refine ⟨rfl, ?_, ?_, ?_⟩
        · intro htrue
          exact absurd htrue (by simp)
        · intro _ hlt8
          omega
        · intro _ _
          refine ⟨rfl, rfl, ?_⟩
          cases hbuf : s.outBuf with
          | nil => simp [List.set]
          | cons x t => simp [List.set]
      · rw [show (!false) = true from rfl, if_pos rfl, if_neg h8]
        refine ⟨rfl, ?_, ?_, ?_⟩
        · intro htrue
          exact absurd htrue (by simp)
        · intro _ _
          exact ⟨rfl, rfl, rfl⟩
        · intro _ h7
          omega

/-- Witness for claim C8: a concrete egress state at out index 3, no
collision. -/
theorem c8_spi_framer_witness :
    (spiIsrStep ⟨[0, 0, 0, 0, 0, 0, 0, 0], 0, [1, 2, 3, 4, 5, 6, 7, 9], 3,
        false, 0⟩ 5 false).spdr
      = ([1, 2, 3, 4, 5, 6, 7, 9] : List Nat).getD 3 0 ∧
    (spiIsrStep ⟨[0, 0, 0, 0, 0, 0, 0, 0], 0, [1, 2, 3, 4, 5, 6, 7, 9], 3,
        false, 0⟩ 5 false).outIndex = 3 + 1 := by
  have h := c8_spi_framer.2
    ⟨[0, 0, 0, 0, 0, 0, 0, 0], 0, [1, 2, 3, 4, 5, 6, 7, 9], 3, false, 0⟩
    5 false (by decide) (by decide)
  exact ⟨h.1, (h.2.2.1 rfl (by decide)).1⟩

/-- Claim C9: with no byte available, a nonzero partial index and an expired
inter byte idle time, the serial poll emits TIMEOUT_ERROR and resets the
index; and an incoming byte at index 0 is stored and advances the index for
every byte value, with no comparison against the request magic. -/
theorem c9_serial_framer :
    (∀ s : SerialState, ∀ now : Nat, 0 < s.index →
      is_micros_timed_out s.last CMD_SERIAL_TIMEOUT now = true →
      serialPoll s none now
        = ({ s with index := 0 }, SerialAction.respond RESP_TIMEOUT_ERROR)) ∧
    (∀ buffer : List Nat, ∀ last b now : Nat, b < 256 →
      serialPoll ⟨buffer, 0, last⟩ (some b) now
        = (⟨buffer.set 0 b, 1, now⟩, SerialAction.idle)) := by
  constructor
  · intro s now hidx ht
    unfold serialPoll
    rw [if_pos ⟨hidx, ht⟩]
  · intro buffer last b now hb
    show (({ buffer := buffer.set 0 (b % 256), index := 1, last := now } : SerialState),
        SerialAction.idle)
      = (⟨buffer.set 0 b, 1, now⟩, SerialAction.idle)
    rw [Nat.mod_eq_of_lt hb]

/-- Witness for claim C9: an expired partial frame, and a first byte 0x55
(not the magic 0x33) that is accepted anyway. -/
theorem c9_serial_framer_witness :
    serialPoll ⟨[0, 0, 0, 0, 0, 0, 0, 0], 3, 100⟩ none 300000
      = (⟨[0, 0, 0, 0, 0, 0, 0, 0], 0, 100⟩, SerialAction.respond RESP_TIMEOUT_ERROR) ∧
    serialPoll ⟨[9, 9, 9, 9, 9, 9, 9, 9], 0, 0⟩ (some 0x55) 42
      = (⟨[0x55, 9, 9, 9, 9, 9, 9, 9], 1, 42⟩, SerialAction.idle) := by
  constructor
  · exact c9_serial_framer.1 ⟨[0, 0, 0, 0, 0, 0, 0, 0], 3, 100⟩ 300000
      (by decide) (by decide)
  · exact c9_serial_framer.2 [9, 9, 9, 9, 9, 9, 9, 9] 0 0x55 42 (by decide)
